import Mathlib

/-!
# Vending backend: transaction and inventory consistency engine

Shallow embedding of the order/payment/dispense/stock core of the
vending-machine backend (Express + MySQL/Supabase).  Each definition
mirrors one route handler or service method of the source:

* `confirmDispense`      — `POST /dispense/confirm` (routes/dispense.js)
* `handleDispenseResult` — `MqttService.handleDispenseResult` (mqttService)
* `levelToStock`, `telemetryUpdate` — `MqttService.handleTelemetry`
* `stockUpdate`          — `POST /stock/update` (stock routes)
* `mapTransactionStatus`, `webhook` — `POST /payments/webhook` (routes/payments.js)
* `verify`               — `POST /payments/verify/:order_id`
* `unitPrice`, `total_amount` — price computation in `POST /orders`

Database rows are modelled as record fields; every handler is a pure
state-transition function on `SysState` (one order with its payment,
its slot, its dispense-log row, and the append-only stock log).
Timestamps are abstracted to booleans recording whether the column is
set (`NOW()`) or `NULL`.
-/

/-- Order lifecycle status values used by the source. -/
inductive OrderStatus where
  | PENDING
  | PAID
  | DISPENSING
  | PENDING_DISPENSE
  | COMPLETED
  | FAILED
  deriving DecidableEq, Repr

/-- Payment status values (payments table). -/
inductive PaymentStatus where
  | PENDING
  | SUCCESS
  | FAILED
  deriving DecidableEq, Repr

/-- Stock-log change types (stock_logs.change_type). -/
inductive ChangeType where
  | DISPENSE
  | RESTOCK
  | MANUAL_ADJUST
  | AUDIT
  deriving DecidableEq, Repr

/-- The change types accepted by the `POST /stock/update` validator
(`isIn(["RESTOCK", "MANUAL_ADJUST", "AUDIT"])`). -/
inductive ManualChangeType where
  | RESTOCK
  | MANUAL_ADJUST
  | AUDIT
  deriving DecidableEq, Repr

/-- One append-only stock_logs row (audit trail). -/
structure StockLogEntry where
  change_type : ChangeType
  quantity_before : Int
  quantity_after : Int
  quantity_change : Int
  deriving DecidableEq, Repr

/-- A slots row: the fields the embedded handlers read or write. -/
structure Slot where
  current_stock : Int
  capacity : Int
  deriving DecidableEq, Repr

/-- An orders row: the fields the embedded handlers read or write.
`paid_at`/`dispensed_at` record whether the timestamp column is set. -/
structure Order where
  status : OrderStatus
  quantity : Int
  paid_at : Bool
  dispensed_at : Bool
  order_notes : Option String
  deriving DecidableEq, Repr

/-- A payments row (one-to-one with the order). -/
structure Payment where
  status : PaymentStatus
  processed : Bool
  deriving DecidableEq, Repr

/-- A dispense_logs row for the dispense attempt of the order. -/
structure DispenseLog where
  completed : Bool
  success : Bool
  drop_detected : Bool
  deriving DecidableEq, Repr

/-- The state touched by one order: its row, its payment, the slot it
dispenses from, its dispense-log row, and the stock audit log. -/
structure SysState where
  order : Order
  payment : Payment
  slot : Slot
  dispenseLog : DispenseLog
  stockLogs : List StockLogEntry
  deriving DecidableEq, Repr

/-! ## Dispense confirmation (HTTP route)

`POST /dispense/confirm` (routes/dispense.js).  The handler first
updates the dispense log, then computes
`order_status = (success && drop_detected) ? "COMPLETED" : "FAILED"`.
In the COMPLETED branch it runs
`UPDATE slots SET current_stock = current_stock - quantity` (no floor)
and inserts a stock log whose quantity_before/after are recomputed from
the already-updated stock.  Finally it overwrites the order status and
`dispensed_at` unconditionally. -/
def confirmDispense (st : SysState) (success drop_detected : Bool) : SysState :=
  let dl := { st.dispenseLog with
                completed := true, success := success, drop_detected := drop_detected }
  if success && drop_detected then
    let newStock := st.slot.current_stock - st.order.quantity
    let entry : StockLogEntry :=
      { change_type := ChangeType.DISPENSE
        quantity_before := newStock + st.order.quantity
        quantity_after := newStock
        quantity_change := - st.order.quantity }
    { st with
        dispenseLog := dl
        slot := { st.slot with current_stock := newStock }
        stockLogs := st.stockLogs ++ [entry]
        order := { st.order with status := OrderStatus.COMPLETED, dispensed_at := true } }
  else
    { st with
        dispenseLog := dl
        order := { st.order with status := OrderStatus.FAILED, dispensed_at := false } }

/-! ## Dispense result (MQTT handler)

`MqttService.handleDispenseResult`.  Same outcome policy as the HTTP
route, but the stock update uses
`GREATEST(0, current_stock - quantity)` (floored at zero). -/
def handleDispenseResult (st : SysState) (success dropDetected : Bool) : SysState :=
  let dl := { st.dispenseLog with
                completed := true, success := success, drop_detected := dropDetected }
  if success && dropDetected then
    let newStock := max 0 (st.slot.current_stock - st.order.quantity)
    let entry : StockLogEntry :=
      { change_type := ChangeType.DISPENSE
        quantity_before := newStock + st.order.quantity
        quantity_after := newStock
        quantity_change := - st.order.quantity }
    { st with
        dispenseLog := dl
        slot := { st.slot with current_stock := newStock }
        stockLogs := st.stockLogs ++ [entry]
        order := { st.order with status := OrderStatus.COMPLETED, dispensed_at := true } }
  else
    { st with
        dispenseLog := dl
        order := { st.order with status := OrderStatus.FAILED, dispensed_at := false } }

/-! ## Sensor telemetry (MQTT handler)

`MqttService.handleTelemetry`: each reported slot level is mapped to a
fixed estimate (`estimatedStock` starts at 0 and the switch has no
default case, so an unrecognized level also yields 0) and written to
`current_stock` by a plain `UPDATE`, with no clamp against capacity. -/

/-- ASCII uppercase of one character: the effect of the JS
`toUpperCase()` call on the level vocabulary. -/
def upperChar (c : Char) : Char :=
  if 97 ≤ c.toNat ∧ c.toNat ≤ 122 then Char.ofNat (c.toNat - 32) else c

/-- ASCII uppercase of a string (JS `slot.level.toUpperCase()`). -/
def upperStr (s : String) : String := String.mk (s.data.map upperChar)

def levelToStock (level : String) : Int :=
  let u := upperStr level
  if u = "FULL" then 10
  else if u = "HIGH" then 8
  else if u = "MEDIUM" then 5
  else if u = "LOW" then 2
  else if u = "EMPTY" then 0
  else 0

/-- The slot write performed by `handleTelemetry` for one reported
slot: an unconditional overwrite with the level estimate. -/
def telemetryUpdate (slot : Slot) (level : String) : Slot :=
  { slot with current_stock := levelToStock level }

/-! ## Manual stock update

`POST /stock/update` (stock routes).  The validator restricts
`change_type` to RESTOCK/MANUAL_ADJUST/AUDIT and `quantity` to
integers ≥ 0.  RESTOCK adds the quantity to the current stock, capped
at capacity; MANUAL_ADJUST and AUDIT treat the quantity as an absolute
target clamped into [0, capacity].  The handler then writes the new
stock and appends one stock-log row. -/
def stockUpdate (slot : Slot) (quantity : Int) (change_type : ManualChangeType) :
    Slot × StockLogEntry :=
  let quantity_before := slot.current_stock
  let quantity_after :=
    match change_type with
    | ManualChangeType.RESTOCK => min (quantity_before + quantity) slot.capacity
    | ManualChangeType.MANUAL_ADJUST => min (max quantity 0) slot.capacity
    | ManualChangeType.AUDIT => min (max quantity 0) slot.capacity
  let quantity_change := quantity_after - quantity_before
  let logged_type :=
    match change_type with
    | ManualChangeType.RESTOCK => ChangeType.RESTOCK
    | ManualChangeType.MANUAL_ADJUST => ChangeType.MANUAL_ADJUST
    | ManualChangeType.AUDIT => ChangeType.AUDIT
  ({ slot with current_stock := quantity_after },
   { change_type := logged_type
     quantity_before := quantity_before
     quantity_after := quantity_after
     quantity_change := quantity_change })

/-! ## Payment webhook

`POST /payments/webhook` (routes/payments.js).  The gateway status is
translated by a `switch` whose default also yields PENDING/PENDING.
The handler then updates the payments row and the orders row
unconditionally (there is no read of the current order status).  If
the translated payment status is SUCCESS it calls the dispense-trigger
endpoint; when that call throws, the order is set to PENDING_DISPENSE
with the failure reason in `notes`. -/
def mapTransactionStatus (transaction_status : String) : PaymentStatus × OrderStatus :=
  if transaction_status = "capture" ∨ transaction_status = "settlement" then
    (PaymentStatus.SUCCESS, OrderStatus.PAID)
  else if transaction_status = "pending" then
    (PaymentStatus.PENDING, OrderStatus.PENDING)
  else if transaction_status = "deny" ∨ transaction_status = "cancel" ∨
          transaction_status = "expire" then
    (PaymentStatus.FAILED, OrderStatus.FAILED)
  else
    (PaymentStatus.PENDING, OrderStatus.PENDING)

/-- The note text written when the dispense trigger fails (the source
appends the axios error message; the constant prefix is what the
claims depend on). -/
def dispenseFailNote : String := "Payment successful but dispense failed"

/-- `triggerOk` models whether the internal HTTP call to the dispense
trigger endpoint succeeded (the axios call not throwing). -/
def webhook (st : SysState) (transaction_status : String) (triggerOk : Bool) : SysState :=
  let ps := (mapTransactionStatus transaction_status).1
  let os := (mapTransactionStatus transaction_status).2
  let st1 : SysState :=
    { st with
        payment := { st.payment with status := ps, processed := true }
        order := { st.order with
                     status := os
                     paid_at := decide (ps = PaymentStatus.SUCCESS) } }
  if ps = PaymentStatus.SUCCESS then
    if triggerOk then st1
    else
      { st1 with
          order := { st1.order with
                       status := OrderStatus.PENDING_DISPENSE
                       order_notes := some dispenseFailNote } }
  else st1

/-! ## Manual verification

`POST /payments/verify/:order_id` (routes/payments.js, current
Supabase/MySQL version).  Unlike the webhook this endpoint reads the
order first: a status outside {PENDING, PAID} is rejected with HTTP
400 and no write; an order already PAID returns success with no write;
otherwise the payment/order rows are written from the `status` body
parameter and, on SUCCESS, the dispense trigger is invoked with the
same PENDING_DISPENSE fallback as the webhook. -/
inductive VerifyResult where
  | invalidState
  | alreadyPaid
  | processed (order_status : OrderStatus)
  deriving DecidableEq, Repr

def verify (st : SysState) (statusParam : String) (triggerOk : Bool) :
    SysState × VerifyResult :=
  if st.order.status ≠ OrderStatus.PENDING ∧ st.order.status ≠ OrderStatus.PAID then
    (st, VerifyResult.invalidState)
  else if st.order.status = OrderStatus.PAID then
    (st, VerifyResult.alreadyPaid)
  else
    let ps := if statusParam = "SUCCESS" then PaymentStatus.SUCCESS else PaymentStatus.FAILED
    let os := if statusParam = "SUCCESS" then OrderStatus.PAID else OrderStatus.FAILED
    let st1 : SysState :=
      { st with
          payment := { st.payment with status := ps, processed := true }
          order := { st.order with
                       status := os
                       paid_at := decide (ps = PaymentStatus.SUCCESS) } }
    if ps = PaymentStatus.SUCCESS then
      if triggerOk then (st1, VerifyResult.processed os)
      else
        ({ st1 with
             order := { st1.order with
                          status := OrderStatus.PENDING_DISPENSE
                          order_notes := some dispenseFailNote } },
         VerifyResult.processed os)
    else (st1, VerifyResult.processed os)

/-! ## Order creation price

`POST /orders` computes
`const price = slotInfo.price_override || slotInfo.price;`
JavaScript `||` falls back when the left operand is falsy, so a
`price_override` that is `null` **or `0`** yields the base product
price, and any non-zero override (including a negative one) is used
as-is. -/
def unitPrice (price_override : Option Int) (price : Int) : Int :=
  match price_override with
  | none => price
  | some v => if v = 0 then price else v

/-- `total_amount = price * quantity` at order creation. -/
def total_amount (price_override : Option Int) (price quantity : Int) : Int :=
  unitPrice price_override price * quantity

/-! ## Concrete states used to instantiate the theorems -/

/-- A paid order mid-dispense: slot holds 5 of capacity 10, quantity 2. -/
def sampleState : SysState :=
  { order := { status := OrderStatus.DISPENSING, quantity := 2, paid_at := true,
               dispensed_at := false, order_notes := none }
    payment := { status := PaymentStatus.SUCCESS, processed := true }
    slot := { current_stock := 5, capacity := 10 }
    dispenseLog := { completed := false, success := false, drop_detected := false }
    stockLogs := [] }

/-- Same order but the slot holds only 1 item while the order wants 2. -/
def lowStockState : SysState :=
  { sampleState with slot := { current_stock := 1, capacity := 10 } }

/-- An order that already FAILED (for example by expiry). -/
def failedOrderState : SysState :=
  { sampleState with
      order := { sampleState.order with status := OrderStatus.FAILED, paid_at := false } }

/-- An order that is already PAID. -/
def paidOrderState : SysState :=
  { sampleState with order := { sampleState.order with status := OrderStatus.PAID } }

/-- An order that already COMPLETED. -/
def completedOrderState : SysState :=
  { sampleState with
      order := { sampleState.order with
                   status := OrderStatus.COMPLETED, dispensed_at := true } }

/-! ## Spec-side definition for the manual-update refinement claim -/

/-- Modelled from the spec for comparison with `stockUpdate` (§4.4):
the operator quantity read as an absolute target,
`new stock = clamp(target, 0, capacity)`. -/
def specTargetStock (target : Int) (slot : Slot) : Int :=
  min (max target 0) slot.capacity

/-! ## C1 -/

/-- C1: a dispense confirmation marks the order COMPLETED exactly when
both `success` and `drop_detected` are true; in every other case the
order is marked FAILED, and the slot stock and the stock log are left
unchanged. -/
theorem confirm_outcome_policy (st : SysState) (success drop_detected : Bool) :
    ((confirmDispense st success drop_detected).order.status = OrderStatus.COMPLETED
        ↔ success = true ∧ drop_detected = true) ∧
    (¬ (success = true ∧ drop_detected = true) →
      (confirmDispense st success drop_detected).order.status = OrderStatus.FAILED ∧
      (confirmDispense st success drop_detected).slot = st.slot ∧
      (confirmDispense st success drop_detected).stockLogs = st.stockLogs) := by
  cases success <;> cases drop_detected <;> simp [confirmDispense]

/-- Witness for C1 at a concrete input: `success = true` with
`drop_detected = false` yields FAILED and no stock mutation. -/
theorem confirm_outcome_policy_witness :
    (confirmDispense sampleState true false).order.status = OrderStatus.FAILED ∧
    (confirmDispense sampleState true false).slot = sampleState.slot ∧
    (confirmDispense sampleState true false).stockLogs = sampleState.stockLogs :=
  (confirm_outcome_policy sampleState true false).2 (by simp)

/-! ## C2 -/

/-- C2 counterexample: starting from stock within bounds, the HTTP
confirm decrement drives the stock of `lowStockState` (1 item,
capacity 10, order quantity 2) to −1, and the telemetry overwrite
drives a capacity-5 slot to 10; both violate
`0 ≤ current_stock ≤ capacity`, so not every writer clamps. -/
theorem stock_bounds_counterexample :
    (0 ≤ lowStockState.slot.current_stock ∧
      lowStockState.slot.current_stock ≤ lowStockState.slot.capacity) ∧
    (confirmDispense lowStockState true true).slot.current_stock < 0 ∧
    ((telemetryUpdate { current_stock := 3, capacity := 5 } "FULL").current_stock >
      ({ current_stock := 3, capacity := 5 } : Slot).capacity) := by
  decide

/-- C2 (amended): only the manual stock-update writer clamps into
`[0, capacity]`, and the MQTT dispense-result writer floors at zero;
the HTTP confirm decrement and the telemetry overwrite do not clamp. -/
theorem stock_writers_clamping (slot : Slot) (q : Int) (ct : ManualChangeType)
    (st : SysState) (success dropDetected : Bool)
    (hs0 : 0 ≤ slot.current_stock) (hsc : slot.current_stock ≤ slot.capacity)
    (hq : 0 ≤ q) (hst : 0 ≤ st.slot.current_stock) :
    (0 ≤ (stockUpdate slot q ct).1.current_stock ∧
      (stockUpdate slot q ct).1.current_stock ≤ slot.capacity) ∧
    0 ≤ (handleDispenseResult st success dropDetected).slot.current_stock := by
  constructor
  · cases ct <;> simp [stockUpdate] <;> omega
  · cases success <;> cases dropDetected <;> simp [handleDispenseResult] <;> omega

/-- Witness for C2 (amended) at concrete inputs. -/
theorem stock_writers_clamping_witness :
    (0 ≤ (stockUpdate { current_stock := 1, capacity := 10 } 10
            ManualChangeType.RESTOCK).1.current_stock ∧
      (stockUpdate { current_stock := 1, capacity := 10 } 10
            ManualChangeType.RESTOCK).1.current_stock ≤
        ({ current_stock := 1, capacity := 10 } : Slot).capacity) ∧
    0 ≤ (handleDispenseResult lowStockState true true).slot.current_stock :=
  stock_writers_clamping { current_stock := 1, capacity := 10 } 10
    ManualChangeType.RESTOCK lowStockState true true
    (by decide) (by decide) (by decide) (by decide)

/-! ## C3 -/

/-- C3 counterexample: a duplicate successful confirmation for an
attempt already closed as COMPLETED is re-applied — the second
`confirmDispense` changes the slot stock again and appends a second
stock-log entry, so the confirm operation is not idempotent. -/
theorem confirm_idempotence_counterexample :
    (confirmDispense sampleState true true).order.status = OrderStatus.COMPLETED ∧
    (confirmDispense (confirmDispense sampleState true true) true true).slot.current_stock ≠
      (confirmDispense sampleState true true).slot.current_stock ∧
    (confirmDispense (confirmDispense sampleState true true) true true).stockLogs.length =
      (confirmDispense sampleState true true).stockLogs.length + 1 := by
  decide

/-- C3 (amended): confirm is not idempotent — a duplicate successful
confirmation is fully re-applied: the HTTP route decrements the stock
a second time (total 2 × quantity) and both the HTTP route and the
MQTT handler append a second DISPENSE stock-log entry. -/
theorem confirm_reapplies_duplicates (st : SysState) :
    (confirmDispense (confirmDispense st true true) true true).slot.current_stock =
      st.slot.current_stock - 2 * st.order.quantity ∧
    (confirmDispense (confirmDispense st true true) true true).stockLogs.length =
      st.stockLogs.length + 2 ∧
    (handleDispenseResult (handleDispenseResult st true true) true true).stockLogs.length =
      st.stockLogs.length + 2 := by
  refine ⟨?_, ?_, ?_⟩ <;> simp [confirmDispense, handleDispenseResult]
  omega

/-! ## C4 -/

/-- C4 counterexample: the webhook performs no order-state check — a
`settlement` (target SUCCESS) webhook for an order that already FAILED
is not rejected: it sets the order back to PAID and the payment to
SUCCESS, re-activating the order. -/
theorem webhook_state_check_counterexample :
    failedOrderState.order.status = OrderStatus.FAILED ∧
    (webhook failedOrderState "settlement" true).order.status = OrderStatus.PAID ∧
    (webhook failedOrderState "settlement" true).payment.status = PaymentStatus.SUCCESS := by
  decide

/-- C4 (amended): only the manual verify endpoint implements the
claimed policy — an order outside {PENDING, PAID} is rejected with an
invalid-order-state error and left unchanged, and an order already
PAID is a no-op reporting success; the webhook applies the translated
status unconditionally, so a SUCCESS-target webhook sets even a
non-{PENDING, PAID} order to PAID. -/
theorem verify_state_policy (st st' : SysState) (sp : String) (trig : Bool)
    (hterm : st.order.status ≠ OrderStatus.PENDING ∧ st.order.status ≠ OrderStatus.PAID)
    (hpaid : st'.order.status = OrderStatus.PAID) :
    verify st sp trig = (st, VerifyResult.invalidState) ∧
    verify st' sp trig = (st', VerifyResult.alreadyPaid) ∧
    (webhook st "settlement" true).order.status = OrderStatus.PAID := by
  refine ⟨?_, ?_, ?_⟩
  · simp [verify, hterm]
  · simp [verify, hpaid]
  · simp [webhook, mapTransactionStatus]

/-- Witness for C4 (amended): a FAILED order is rejected by verify and
left unchanged, a PAID order is a verify no-op, and the webhook still
re-activates the FAILED order. -/
theorem verify_state_policy_witness :
    verify failedOrderState "SUCCESS" true = (failedOrderState, VerifyResult.invalidState) ∧
    verify paidOrderState "SUCCESS" true = (paidOrderState, VerifyResult.alreadyPaid) ∧
    (webhook failedOrderState "settlement" true).order.status = OrderStatus.PAID :=
  verify_state_policy failedOrderState paidOrderState "SUCCESS" true
    (by decide) (by decide)

/-! ## C5 -/

/-- C5 counterexample: on a COMPLETED confirmation through the HTTP
route the decrement is not floored at zero — from stock 1 with order
quantity 2 the slot goes to −1. -/
theorem dispense_floor_counterexample :
    (confirmDispense lowStockState true true).order.status = OrderStatus.COMPLETED ∧
    (confirmDispense lowStockState true true).slot.current_stock = -1 := by
  decide

/-- C5 (amended): on a COMPLETED confirmation the HTTP route
decrements the slot stock by exactly the order quantity with no floor
(the result can go negative) and appends one DISPENSE stock-log entry
with `quantity_before` the old stock, `quantity_after` the new stock
and `quantity_change = -quantity`; the MQTT result handler instead
floors the decrement at zero. -/
theorem dispense_decrement_semantics (st : SysState) :
    (confirmDispense st true true).slot.current_stock =
      st.slot.current_stock - st.order.quantity ∧
    (confirmDispense st true true).stockLogs =
      st.stockLogs ++
        [{ change_type := ChangeType.DISPENSE
           quantity_before := st.slot.current_stock
           quantity_after := st.slot.current_stock - st.order.quantity
           quantity_change := - st.order.quantity }] ∧
    (handleDispenseResult st true true).slot.current_stock =
      max 0 (st.slot.current_stock - st.order.quantity) := by
  refine ⟨by simp [confirmDispense], ?_, by simp [handleDispenseResult]⟩
  simp [confirmDispense]

/-! ## C6 -/

/-- C6 counterexample: terminal states are not immutable — an `expire`
webhook arriving for an order that already COMPLETED rewrites its
status to FAILED (and rewrites the payment row). -/
theorem terminal_immutability_counterexample :
    completedOrderState.order.status = OrderStatus.COMPLETED ∧
    (webhook completedOrderState "expire" true).order.status = OrderStatus.FAILED ∧
    (webhook completedOrderState "expire" true).payment.status = PaymentStatus.FAILED := by
  decide

/-- C6 (amended): terminal states are not protected — for an order in
COMPLETED or FAILED, the webhook still rewrites the order status and
the dispense confirm still mutates the slot stock; only the manual
verify endpoint rejects the request and leaves the whole state
unchanged. -/
theorem terminal_state_behavior (st : SysState) (sp : String) (trig : Bool)
    (hterm : st.order.status = OrderStatus.COMPLETED ∨
             st.order.status = OrderStatus.FAILED) :
    verify st sp trig = (st, VerifyResult.invalidState) ∧
    (webhook st "settlement" trig).order.status =
      (if trig then OrderStatus.PAID else OrderStatus.PENDING_DISPENSE) ∧
    (confirmDispense st true true).slot.current_stock =
      st.slot.current_stock - st.order.quantity := by
  refine ⟨?_, ?_, by simp [confirmDispense]⟩
  · rcases hterm with h | h <;> simp [verify, h]
  · cases trig <;> simp [webhook, mapTransactionStatus]

/-- Witness for C6 (amended) on a COMPLETED order. -/
theorem terminal_state_behavior_witness :
    verify completedOrderState "SUCCESS" true =
      (completedOrderState, VerifyResult.invalidState) ∧
    (webhook completedOrderState "settlement" true).order.status =
      (if true then OrderStatus.PAID else OrderStatus.PENDING_DISPENSE) ∧
    (confirmDispense completedOrderState true true).slot.current_stock =
      completedOrderState.slot.current_stock - completedOrderState.order.quantity :=
  terminal_state_behavior completedOrderState "SUCCESS" true (Or.inl rfl)

/-! ## C7 -/

/-- C7 counterexample: for RESTOCK the operator quantity is not an
absolute target — from stock 5, capacity 10, a RESTOCK with quantity 3
yields stock 8 (additive, capped at capacity), not the clamped target
3 that the claim predicts. -/
theorem restock_absolute_target_counterexample :
    (stockUpdate { current_stock := 5, capacity := 10 } 3
        ManualChangeType.RESTOCK).1.current_stock = 8 ∧
    specTargetStock 3 { current_stock := 5, capacity := 10 } = 3 ∧
    (stockUpdate { current_stock := 5, capacity := 10 } 3
        ManualChangeType.RESTOCK).1.current_stock ≠
      specTargetStock 3 { current_stock := 5, capacity := 10 } := by
  decide

/-- C7 (amended): MANUAL_ADJUST and AUDIT treat the quantity as an
absolute target clamped into [0, capacity] with the logged delta equal
to the clamped target minus the previous stock, as the claim states;
RESTOCK instead treats it as an increment, `min(current + quantity,
capacity)`.  Every update is logged under its own change type, and the
spec scenario (RESTOCK quantity 10 from stock 1, capacity 10) still
yields stock 10 with delta +9 because the additive result is capped at
capacity. -/
theorem manual_stock_update_semantics (slot : Slot) (q : Int) :
    (stockUpdate slot q ManualChangeType.MANUAL_ADJUST).1.current_stock =
      specTargetStock q slot ∧
    (stockUpdate slot q ManualChangeType.AUDIT).1.current_stock =
      specTargetStock q slot ∧
    (stockUpdate slot q ManualChangeType.MANUAL_ADJUST).2.quantity_change =
      specTargetStock q slot - slot.current_stock ∧
    (stockUpdate slot q ManualChangeType.MANUAL_ADJUST).2.change_type =
      ChangeType.MANUAL_ADJUST ∧
    (stockUpdate slot q ManualChangeType.RESTOCK).1.current_stock =
      min (slot.current_stock + q) slot.capacity ∧
    (stockUpdate slot q ManualChangeType.RESTOCK).2.change_type =
      ChangeType.RESTOCK ∧
    (stockUpdate { current_stock := 1, capacity := 10 } 10
        ManualChangeType.RESTOCK).1.current_stock = 10 ∧
    (stockUpdate { current_stock := 1, capacity := 10 } 10
        ManualChangeType.RESTOCK).2.quantity_change = 9 := by
  refine ⟨?_, ?_, ?_, rfl, ?_, rfl, by decide, by decide⟩ <;>
    simp [stockUpdate, specTargetStock]

/-! ## C8 -/

/-- C8: when the dispense trigger fails after a successful payment
reconciliation, neither the webhook nor the manual verify rolls back
the payment — the payment stays SUCCESS with `paid_at` set, and the
order is moved to PENDING_DISPENSE with the failure reason recorded in
its notes. -/
theorem trigger_failure_keeps_payment_success (st : SysState)
    (hp : st.order.status = OrderStatus.PENDING) :
    ((webhook st "settlement" false).payment.status = PaymentStatus.SUCCESS ∧
     (webhook st "settlement" false).order.status = OrderStatus.PENDING_DISPENSE ∧
     (webhook st "settlement" false).order.order_notes = some dispenseFailNote ∧
     (webhook st "settlement" false).order.paid_at = true) ∧
    ((verify st "SUCCESS" false).1.payment.status = PaymentStatus.SUCCESS ∧
     (verify st "SUCCESS" false).1.order.status = OrderStatus.PENDING_DISPENSE ∧
     (verify st "SUCCESS" false).1.order.order_notes = some dispenseFailNote ∧
     (verify st "SUCCESS" false).1.order.paid_at = true) := by
  constructor
  · simp [webhook, mapTransactionStatus]
  · simp [verify, hp]

/-- Witness for C8 on a concrete PENDING order. -/
theorem trigger_failure_keeps_payment_success_witness :
    (((webhook { sampleState with
          order := { sampleState.order with status := OrderStatus.PENDING } }
        "settlement" false).payment.status = PaymentStatus.SUCCESS ∧
      (webhook { sampleState with
          order := { sampleState.order with status := OrderStatus.PENDING } }
        "settlement" false).order.status = OrderStatus.PENDING_DISPENSE ∧
      (webhook { sampleState with
          order := { sampleState.order with status := OrderStatus.PENDING } }
        "settlement" false).order.order_notes = some dispenseFailNote ∧
      (webhook { sampleState with
          order := { sampleState.order with status := OrderStatus.PENDING } }
        "settlement" false).order.paid_at = true) ∧
     ((verify { sampleState with
          order := { sampleState.order with status := OrderStatus.PENDING } }
        "SUCCESS" false).1.payment.status = PaymentStatus.SUCCESS ∧
      (verify { sampleState with
          order := { sampleState.order with status := OrderStatus.PENDING } }
        "SUCCESS" false).1.order.status = OrderStatus.PENDING_DISPENSE ∧
      (verify { sampleState with
          order := { sampleState.order with status := OrderStatus.PENDING } }
        "SUCCESS" false).1.order.order_notes = some dispenseFailNote ∧
      (verify { sampleState with
          order := { sampleState.order with status := OrderStatus.PENDING } }
        "SUCCESS" false).1.order.paid_at = true)) :=
  trigger_failure_keeps_payment_success
    { sampleState with
        order := { sampleState.order with status := OrderStatus.PENDING } } rfl

/-! ## C9 -/

/-- C9: at order creation a `price_override` of 0 is falsy in the JS
`price_override || price` expression, so the unit price falls back to
the base product price, the total equals base price times quantity,
and a zero total can never arise from a zero override (only from a
zero base price). -/
theorem zero_price_override_uses_base_price (price quantity : Int)
    (hq : 1 ≤ quantity) :
    unitPrice (some 0) price = price ∧
    total_amount (some 0) price quantity = price * quantity ∧
    (price ≠ 0 → total_amount (some 0) price quantity ≠ 0) := by
  refine ⟨rfl, rfl, ?_⟩
  intro hp
  simp only [total_amount, unitPrice, if_pos rfl]
  exact mul_ne_zero hp (by omega)

/-- Witness for C9 at base price 3, quantity 2. -/
theorem zero_price_override_uses_base_price_witness :
    unitPrice (some 0) 3 = 3 ∧
    total_amount (some 0) 3 2 = 3 * 2 ∧
    ((3 : Int) ≠ 0 → total_amount (some 0) 3 2 ≠ 0) :=
  zero_price_override_uses_base_price 3 2 (by decide)

/-! ## C10 -/

/-- C10: a webhook whose `transaction_status` is outside
{capture, settlement, pending, deny, cancel, expire} falls into the
switch default — it maps to payment PENDING / order PENDING, and these
values are written to the payment and order rows regardless of the
current order state. -/
theorem unknown_transaction_status_maps_to_pending (st : SysState) (s : String)
    (trig : Bool)
    (h : s ∉ (["capture", "settlement", "pending", "deny", "cancel", "expire"] :
                List String)) :
    mapTransactionStatus s = (PaymentStatus.PENDING, OrderStatus.PENDING) ∧
    (webhook st s trig).payment.status = PaymentStatus.PENDING ∧
    (webhook st s trig).order.status = OrderStatus.PENDING ∧
    (webhook st s trig).payment.processed = true := by
  simp only [List.mem_cons, List.not_mem_nil, or_false, not_or] at h
  obtain ⟨h1, h2, h3, h4, h5, h6⟩ := h
  have hm : mapTransactionStatus s = (PaymentStatus.PENDING, OrderStatus.PENDING) := by
    simp [mapTransactionStatus, h1, h2, h3, h4, h5, h6]
  refine ⟨hm, ?_, ?_, ?_⟩ <;> simp [webhook, hm]

/-- Witness for C10 with the unrecognized status string `refund` on an
order that is already PAID. -/
theorem unknown_transaction_status_maps_to_pending_witness :
    mapTransactionStatus "refund" = (PaymentStatus.PENDING, OrderStatus.PENDING) ∧
    (webhook paidOrderState "refund" true).payment.status = PaymentStatus.PENDING ∧
    (webhook paidOrderState "refund" true).order.status = OrderStatus.PENDING ∧
    (webhook paidOrderState "refund" true).payment.processed = true :=
  unknown_transaction_status_maps_to_pending paidOrderState "refund" true (by decide)
